import Mathlib

/-!
Shallow embedding of the lazy environment-variable settings module
(`src/python/lazily-evaluated-env-vars.py`).

The module defines four proxy classes — `Setting` (text), `IntSetting`,
`FloatSetting` and `ListSetting` — that defer reading `os.environ` until the
first access of their `value` property (a `functools.cached_property`), cache
the result on success, and parse the raw text into the target type.

Modelling choices:
* `os.environ` is an abstract store `Env := String → Option String`.
* Python exceptions are the explicit error type `PyErr` (`KeyError` for the
  missing-required-setting condition, `TypeError` for the construction-time
  fallback check, `ValueError` for numeric conversion failures), and fallible
  operations return `Except PyErr _`.
* Python `float` values are modelled exactly as rationals (`Rat`); the
  built-in parsers `int(...)` and `float(...)` are modelled for decimal
  literals (optional sign, digits, decimal point, exponent, surrounding
  whitespace) by `pyIntParse` and `pyFloatParse`.
* `functools.cached_property` is modelled by `Cached`/`access`: an explicit
  per-instance cache slot that is written only when the underlying
  computation succeeds.
* The dynamic method forwarding of `Setting.__getattr__` /
  `ListSetting.__getattr__` is modelled at the level of method-name tables
  (`strMethodNames`, `listMethodNames`, taken from the non-dunder,
  non-static entries of CPython's `str.__dict__` and `list.__dict__`).
-/

deriving instance DecidableEq for Except

namespace LazyEnv

/-- Single-quote character as a string (used to rebuild the source's
error-message literals without bare quote characters). -/
def sq : String := String.mk [Char.ofNat 39]

/-- Backtick character as a string. -/
def bq : String := String.mk [Char.ofNat 96]

/-- Model of the Python exceptions the module can raise. -/
inductive PyErr where
  | keyError (key : String)
  | typeError (msg : String)
  | valueError (msg : String)
deriving DecidableEq

/-- The backing store (`os.environ`): a read-only string key/value mapping. -/
abbrev Env := String → Option String

/-- Model of `os.environ[name]`: raises `KeyError(name)` when absent. -/
def environGetItem (env : Env) (name : String) : Except PyErr String :=
  match env name with
  | some v => Except.ok v
  | Option.none => Except.error (PyErr.keyError name)

/-- Model of `os.environ.get(name, d)` with a string fallback `d`. -/
def environGetD (env : Env) (name d : String) : String :=
  (env name).getD d

/-- Model of the Python values a caller could pass as the `default` argument
of the dataclasses (the source annotates it `str | Missing` but nothing stops
a caller passing another type, which `__post_init__` must reject). -/
inductive PyVal where
  | pyStr (s : String)
  | pyInt (n : Int)
  | pyFloat (q : Rat)
  | pyListVal (xs : List String)
  | pyNone
deriving DecidableEq

/-- Model of `type(v).__name__` for the values of `PyVal`. -/
def PyVal.typeName : PyVal → String
  | .pyStr _ => "str"
  | .pyInt _ => "int"
  | .pyFloat _ => "float"
  | .pyListVal _ => "list"
  | .pyNone => "NoneType"

/-- Whether a `PyVal` is a Python `str`. -/
def PyVal.isStr : PyVal → Bool
  | .pyStr _ => true
  | _ => false

/-- The `TypeError` message built by every `__post_init__` in the module
(lines 45-48, 113-116, 279-282, 465-468 of the source). -/
def invalidDefaultMsg (v : PyVal) : String :=
  "Setting" ++ sq ++ "s " ++ bq ++ "default" ++ bq ++
    " argument must be a string if provided, not " ++ v.typeName

/-- Model of `__post_init__` (identical in all four dataclasses): accept the
`MISSING` sentinel (`Option.none`) or a `str`; raise `TypeError` otherwise.
On success it yields the `Option String` view of the default. -/
def checkDefault (d : Option PyVal) : Except PyErr (Option String) :=
  match d with
  | Option.none => Except.ok Option.none
  | some (PyVal.pyStr s) => Except.ok (some s)
  | some v => Except.error (PyErr.typeError (invalidDefaultMsg v))

/-- The per-instance data of `Setting`, `IntSetting` and `FloatSetting`:
the lookup key and the optional string fallback (`Option.none` models the
`MISSING` sentinel). -/
structure SettingData where
  name : String
  default : Option String
deriving DecidableEq

/-- Model of dataclass construction for `Setting` / `IntSetting` /
`FloatSetting`: run `__post_init__` on the supplied default. Construction
takes no `Env` argument — the store is never touched at construction time. -/
def mkSetting (name : String) (d : Option PyVal) : Except PyErr SettingData :=
  (checkDefault d).map (fun v => SettingData.mk name v)

/-- The per-instance data of `ListSetting[T]`: key, optional per-item
conversion, separator (source default a single space), maximum split count
(source default `-1`, i.e. unbounded) and optional string fallback. -/
structure ListSettingData (T : Type) where
  name : String
  itemCallable : Option (String → T)
  sep : String
  maxSplit : Int
  default : Option String

/-- Model of `ListSetting` construction: run `__post_init__` on the supplied
default. Takes no `Env` argument — the store is never touched. -/
def mkListSetting {T : Type} (name : String) (f : Option (String → T))
    (sep : String) (maxSplit : Int) (d : Option PyVal) :
    Except PyErr (ListSettingData T) :=
  (checkDefault d).map (fun v => ListSettingData.mk name f sep maxSplit v)

/-- Model of `Setting.value` (source lines 59-68): if `default is MISSING`,
return `os.environ[name]` (raising `KeyError` when absent), else return
`os.environ.get(name, default)`. -/
def settingValue (env : Env) (s : SettingData) : Except PyErr String :=
  match s.default with
  | Option.none => environGetItem env s.name
  | some d => Except.ok (environGetD env s.name d)

/-- Python whitespace characters recognised by `str.strip()` (ASCII range). -/
def isPySpace (c : Char) : Bool :=
  c = ' ' || c = Char.ofNat 9 || c = Char.ofNat 10 || c = Char.ofNat 13 ||
    c = Char.ofNat 11 || c = Char.ofNat 12

/-- Model of `str.strip()`: remove leading and trailing whitespace. -/
def pyStrip (s : String) : String :=
  String.mk (((s.toList.dropWhile isPySpace).reverse.dropWhile isPySpace).reverse)

/-- Value of a (known-valid) list of decimal digit characters. -/
def digitsToNat (ds : List Char) : Nat :=
  ds.foldl (fun a c => a * 10 + (c.toNat - 48)) 0

/-- Whether `ds` is a nonempty list of decimal digits. -/
def isDigits (ds : List Char) : Bool :=
  !ds.isEmpty && ds.all (fun c => c.isDigit)

/-- Model of Python's built-in `int(...)` on strings, restricted to plain
decimal literals: surrounding whitespace, an optional sign and a nonempty
run of digits (digit-group underscores are outside the model). -/
def pyIntParse (s : String) : Option Int :=
  match (pyStrip s).toList with
  | '-' :: rest =>
      if isDigits rest then some (-(digitsToNat rest : Int)) else Option.none
  | '+' :: rest =>
      if isDigits rest then some ((digitsToNat rest : Int)) else Option.none
  | rest =>
      if isDigits rest then some ((digitsToNat rest : Int)) else Option.none

/-- Split a character list into its leading run of digits and the rest. -/
def takeDigits (cs : List Char) : List Char × List Char :=
  (cs.takeWhile Char.isDigit, cs.dropWhile Char.isDigit)

/-- Exact rational value of the decimal literal with sign `sgn`, integer
digits `ip`, fraction digits `fp` and decimal exponent `e`. -/
def decToRat (sgn : Int) (ip fp : List Char) (e : Int) : Rat :=
  let m : Int := sgn * (digitsToNat (ip ++ fp) : Int)
  let shift : Int := e - (fp.length : Int)
  if 0 ≤ shift then mkRat (m * ((10 ^ shift.toNat : Nat) : Int)) 1
  else mkRat m (10 ^ (-shift).toNat)

/-- Parse the exponent tail (after `e`/`E`) of a decimal float literal. -/
def parseExpTail (sgn : Int) (ip fp : List Char) (r : List Char) : Option Rat :=
  let (es, r1) : Int × List Char :=
    match r with
    | '-' :: r2 => (-1, r2)
    | '+' :: r2 => (1, r2)
    | r2 => (1, r2)
  let (ed, r2) := takeDigits r1
  if ed.isEmpty || !r2.isEmpty then Option.none
  else some (decToRat sgn ip fp (es * (digitsToNat ed : Int)))

/-- Model of Python's built-in `float(...)` on strings, restricted to finite
decimal literals `[sign] digits [. digits] [(e|E) [sign] digits]` with
surrounding whitespace (`inf`/`nan` and digit-group underscores are outside
the model; the value of a decimal literal is taken exactly, as a rational). -/
def pyFloatParse (s : String) : Option Rat :=
  let t0 := (pyStrip s).toList
  let (sgn, t1) : Int × List Char :=
    match t0 with
    | '-' :: r => (-1, r)
    | '+' :: r => (1, r)
    | r => (1, r)
  let (ip, t2) := takeDigits t1
  let (fp, t3) :=
    match t2 with
    | '.' :: r => takeDigits r
    | _ => (([] : List Char), t2)
  if ip.isEmpty && fp.isEmpty then Option.none
  else
    match t3 with
    | [] => some (decToRat sgn ip fp 0)
    | 'e' :: r => parseExpTail sgn ip fp r
    | 'E' :: r => parseExpTail sgn ip fp r
    | _ => Option.none

/-- The `ValueError` message of the numeric settings (source lines 141,
307): names the key and quotes the offending raw text. `kind` is
`"a float"` or `"an int"`. -/
def convMsg (kind name v : String) : String :=
  "Environment variable " ++ sq ++ name ++ sq ++ " with value " ++ sq ++ v ++
    sq ++ " cannot be converted to " ++ kind

/-- Model of the raw-text phase of `FloatSetting.value` / `IntSetting.value`
(source lines 134-136 and 300-302): when `default is MISSING` the guarded
`value = os.environ[self.name]` runs first (raising `KeyError` when the key
is absent) and its result is then discarded by the unconditional
`value = os.environ.get(self.name, self.default)` overwrite; the net result
is the environment text when the key is present, the string default when it
is absent, and `KeyError` when absent with no default. -/
def numericRawValue (env : Env) (s : SettingData) : Except PyErr String :=
  match s.default, env s.name with
  | Option.none, Option.none => Except.error (PyErr.keyError s.name)
  | _, some v => Except.ok v
  | some d, Option.none => Except.ok d

/-- Model of the `try: return <conv>(value) except ValueError: raise` tail of
the numeric `value` properties. -/
def parseStep {α : Type} (parse : String → Option α) (kind name v : String) :
    Except PyErr α :=
  match parse v with
  | some x => Except.ok x
  | Option.none => Except.error (PyErr.valueError (convMsg kind name v))

/-- The shared shape of `FloatSetting.value` and `IntSetting.value`
(the two properties differ only in the conversion function and the word at
the end of the error message). -/
def numericSettingValue {α : Type} (parse : String → Option α) (kind : String)
    (env : Env) (s : SettingData) : Except PyErr α :=
  match numericRawValue env s with
  | Except.error e => Except.error e
  | Except.ok v => parseStep parse kind s.name v

/-- Model of `IntSetting.value` (source lines 293-308). -/
def intSettingValue (env : Env) (s : SettingData) : Except PyErr Int :=
  numericSettingValue pyIntParse "an int" env s

/-- Model of `FloatSetting.value` (source lines 127-142). -/
def floatSettingValue (env : Env) (s : SettingData) : Except PyErr Rat :=
  numericSettingValue pyFloatParse "a float" env s

/-- Instrumented variant of the numeric `value` properties: additionally
counts how many times the two `os.environ` reads on source lines 135/301
(`os.environ[self.name]`, run only when `default is MISSING`) and 136/302
(`os.environ.get(...)`, run unconditionally) consult the store. -/
def numericSettingValueCounting {α : Type} (parse : String → Option α)
    (kind : String) (env : Env) (s : SettingData) : Except PyErr α × Nat :=
  match s.default, env s.name with
  | Option.none, Option.none => (Except.error (PyErr.keyError s.name), 1)
  | Option.none, some v => (parseStep parse kind s.name v, 2)
  | some _, some v => (parseStep parse kind s.name v, 1)
  | some d, Option.none => (parseStep parse kind s.name d, 1)

/-- Worker for the model of `str.split(sep, maxsplit)` with an explicit
separator: walk the characters with enough fuel, splitting at each
occurrence of `sep` while the remaining split budget `m` is nonzero
(a negative budget, Python's `-1` default, never reaches zero). -/
def pySplitAux (sep : List Char) : Nat → Int → List Char → List Char →
    List (List Char)
  | _, _, [], cur => [cur.reverse]
  | 0, _, cs, cur => [cur.reverse ++ cs]
  | fuel + 1, m, c :: cs, cur =>
    if m != 0 && sep.isPrefixOf (c :: cs) then
      cur.reverse :: pySplitAux sep fuel (m - 1) (cs.drop (sep.length - 1)) []
    else
      pySplitAux sep fuel m cs (c :: cur)

/-- Model of Python `s.split(sep, maxsplit)` for a nonempty explicit
separator (the only use in the source; Python rejects an empty separator). -/
def pySplit (s sep : String) (maxsplit : Int) : List String :=
  (pySplitAux sep.toList (s.toList.length + 1) maxsplit s.toList []).map
    String.mk

/-- Model of the raw-text phase of `ListSetting.value` (source lines
488-491): `os.environ[name]` when `default is MISSING`, else
`os.environ.get(name, default)`. -/
def listRawValue {T : Type} (env : Env) (s : ListSettingData T) :
    Except PyErr String :=
  match s.default with
  | Option.none => environGetItem env s.name
  | some d => Except.ok (environGetD env s.name d)

/-- Model of `ListSetting.value` (source lines 481-496): split the raw text
on the separator bounded by the maximum split count, strip every piece, and
map the per-item callable over the pieces when one is configured (the
source returns `list[str]` in one branch and `list[T]` in the other,
modelled by the sum). -/
def listSettingValue {T : Type} (env : Env) (s : ListSettingData T) :
    Except PyErr (List String ⊕ List T) :=
  match listRawValue env s with
  | Except.error e => Except.error e
  | Except.ok unparsed =>
    let listVer := (pySplit unparsed s.sep s.maxSplit).map pyStrip
    match s.itemCallable with
    | Option.none => Except.ok (Sum.inl listVer)
    | some f => Except.ok (Sum.inr (listVer.map f))

/-- The per-instance cache slot behind `functools.cached_property`. -/
structure Cached (α : Type) where
  cache : Option α
deriving DecidableEq

/-- Model of a `cached_property` access: return the cached value when
present; otherwise run the underlying computation against the store,
writing the cache only when it succeeds (the stdlib stores nothing when the
wrapped function raises). -/
def access {α : Type} (resolve : Env → Except PyErr α) (env : Env)
    (c : Cached α) : Except PyErr α × Cached α :=
  match c.cache with
  | some v => (Except.ok v, c)
  | Option.none =>
    match resolve env with
    | Except.ok v => (Except.ok v, Cached.mk (some v))
    | Except.error e => (Except.error e, c)

/-- Counting variant of `access`: also reports how many store consultations
the access performed (zero on a cache hit; the underlying resolution's own
count on a miss). -/
def accessCounting {α : Type} (resolveC : Env → Except PyErr α × Nat)
    (env : Env) (c : Cached α) : (Except PyErr α × Cached α) × Nat :=
  match c.cache with
  | some v => ((Except.ok v, c), 0)
  | Option.none =>
    match resolveC env with
    | (Except.ok v, n) => ((Except.ok v, Cached.mk (some v)), n)
    | (Except.error e, n) => ((Except.error e, c), n)

/-- Model of the two numeric Python value kinds flowing through the
overloaded arithmetic (`int` and `float`, the latter exact as `Rat`). -/
inductive PyNum where
  | i (n : Int)
  | f (q : Rat)
deriving DecidableEq

/-- Python numeric addition with the ordinary promotion rule: the result is
a `float` when either operand is. -/
def pyNumAdd : PyNum → PyNum → PyNum
  | PyNum.i a, PyNum.i b => PyNum.i (a + b)
  | PyNum.i a, PyNum.f b => PyNum.f ((a : Rat) + b)
  | PyNum.f a, PyNum.i b => PyNum.f (a + (b : Rat))
  | PyNum.f a, PyNum.f b => PyNum.f (a + b)

/-- The right-hand operands accepted by `IntSetting.__add__` /
`FloatSetting.__add__` (source lines 314-320 and 148-154): another numeric
proxy, or a plain number. -/
inductive Operand where
  | intProxy (s : SettingData)
  | floatProxy (s : SettingData)
  | num (v : PyNum)

/-- Resolve an operand to its numeric value (`other.value` in the source for
proxies; the number itself otherwise). -/
def operandValue (env : Env) : Operand → Except PyErr PyNum
  | Operand.intProxy s => (intSettingValue env s).map PyNum.i
  | Operand.floatProxy s => (floatSettingValue env s).map PyNum.f
  | Operand.num v => Except.ok v

/-- Model of `IntSetting.__add__` (source lines 314-320): `self.value +
other.value` for proxy operands, `self.value + other` for plain numbers. -/
def intSettingAdd (env : Env) (s : SettingData) (other : Operand) :
    Except PyErr PyNum :=
  match intSettingValue env s, operandValue env other with
  | Except.ok a, Except.ok b => Except.ok (pyNumAdd (PyNum.i a) b)
  | Except.error e, _ => Except.error e
  | Except.ok _, Except.error e => Except.error e

/-- Model of `FloatSetting.__add__` (source lines 148-154). -/
def floatSettingAdd (env : Env) (s : SettingData) (other : Operand) :
    Except PyErr PyNum :=
  match floatSettingValue env s, operandValue env other with
  | Except.ok a, Except.ok b => Except.ok (pyNumAdd (PyNum.f a) b)
  | Except.error e, _ => Except.error e
  | Except.ok _, Except.error e => Except.error e

/-- The non-dunder, non-static entries of CPython's `str.__dict__` — the
table the forwarding lambda in `ListSetting.__getattr__` (source line 509)
and `Setting.__getattr__` actually index into. -/
def strMethodNames : List String :=
  ["capitalize", "casefold", "center", "count", "encode", "endswith",
   "expandtabs", "find", "format", "format_map", "index", "isalnum",
   "isalpha", "isascii", "isdecimal", "isdigit", "isidentifier", "islower",
   "isnumeric", "isprintable", "isspace", "istitle", "isupper", "join",
   "ljust", "lower", "lstrip", "partition", "removeprefix", "removesuffix",
   "replace", "rfind", "rindex", "rjust", "rpartition", "rsplit", "rstrip",
   "split", "splitlines", "startswith", "strip", "swapcase", "title",
   "translate", "upper", "zfill"]

/-- The non-dunder, non-static entries of CPython's `list.__dict__` — the
source's `ListSetting.list_methods` table (source lines 454-460). -/
def listMethodNames : List String :=
  ["append", "clear", "copy", "count", "extend", "index", "insert", "pop",
   "remove", "reverse", "sort"]

/-- The list-method names ordinary attribute lookup already finds on a
`ListSetting` instance, so that `__getattr__` is never consulted for them:
`insert` is defined on the class itself, `append`/`clear`/`extend`/`pop`/
`remove`/`reverse` come from the `MutableSequence` mixins and
`index`/`count` from the `Sequence` mixins. -/
def listSettingProvided : List String :=
  ["insert", "append", "clear", "extend", "pop", "remove", "reverse",
   "index", "count"]

/-- Model of invoking the lambda `ListSetting.__getattr__` returns: it
evaluates `str.__dict__[name]` (source line 509) — a `KeyError` when the
name is not a `str` method — and would then apply that `str` method. The
model returns the fetched method's name on success. -/
def invokeForwardedListMethod (name : String) : Except PyErr String :=
  if name ∈ strMethodNames then Except.ok name
  else Except.error (PyErr.keyError name)

/-- Model of `ListSetting.__getattr__` (source lines 498-511) for names not
found by ordinary lookup: when the name is in `list_methods` it returns the
forwarding callable (modelled by that callable's invocation behaviour),
otherwise attribute lookup fails. -/
def listSettingGetattr (name : String) : Option (Except PyErr String) :=
  if name ∈ listMethodNames then some (invokeForwardedListMethod name)
  else Option.none

/-- The string `msg` mentions `part`: `part` occurs verbatim inside `msg`. -/
def mentionsSub (msg part : String) : Prop :=
  ∃ pre post, pre ++ part ++ post = msg

end LazyEnv

namespace LazyEnv

/-- The counting model agrees with the plain numeric resolution model on the
resolved result (it only adds the store-consultation count). -/
theorem numericSettingValueCounting_consistent {α : Type}
    (parse : String → Option α) (kind : String) (env : Env) (s : SettingData) :
    (numericSettingValueCounting parse kind env s).1
      = numericSettingValue parse kind env s := by
  cases hd : s.default <;> cases he : env s.name <;>
    simp [numericSettingValueCounting, numericSettingValue, numericRawValue,
      hd, he]

/-- The numeric conversion error message contains the key name verbatim. -/
theorem convMsg_mentions_name (kind name v : String) :
    mentionsSub (convMsg kind name v) name :=
  ⟨"Environment variable " ++ sq,
   sq ++ " with value " ++ sq ++ v ++ sq ++ " cannot be converted to " ++ kind,
   by simp [convMsg, String.append_assoc]⟩

/-- The numeric conversion error message contains the raw text verbatim. -/
theorem convMsg_mentions_value (kind name v : String) :
    mentionsSub (convMsg kind name v) v :=
  ⟨"Environment variable " ++ sq ++ name ++ sq ++ " with value " ++ sq,
   sq ++ " cannot be converted to " ++ kind,
   by simp [convMsg, String.append_assoc]⟩

/-- C1: for every proxy kind (text, integer, real, sequence) constructed
with a key and no fallback, if the key is absent from the backing store at
resolution time, the value access fails with the key-not-found error naming
the key, rather than returning any value. -/
theorem missing_key_raises_missing_required (env : Env) (name : String)
    (h : env name = Option.none) :
    settingValue env (SettingData.mk name Option.none)
        = Except.error (PyErr.keyError name) ∧
    intSettingValue env (SettingData.mk name Option.none)
        = Except.error (PyErr.keyError name) ∧
    floatSettingValue env (SettingData.mk name Option.none)
        = Except.error (PyErr.keyError name) ∧
    ∀ (T : Type) (f : Option (String → T)) (sep : String) (ms : Int),
      listSettingValue env (ListSettingData.mk name f sep ms Option.none)
        = Except.error (PyErr.keyError name) := by
  refine ⟨?_, ?_, ?_, fun T f sep ms => ?_⟩ <;>
    simp [settingValue, intSettingValue, floatSettingValue,
      numericSettingValue, numericRawValue, listSettingValue, listRawValue,
      environGetItem, h]

/-- C1 witness at a concrete store and key. -/
theorem missing_key_raises_missing_required_witness :
    settingValue (fun _ => Option.none) (SettingData.mk "EXAMPLE" Option.none)
        = Except.error (PyErr.keyError "EXAMPLE") ∧
    intSettingValue (fun _ => Option.none)
        (SettingData.mk "EXAMPLE" Option.none)
        = Except.error (PyErr.keyError "EXAMPLE") ∧
    floatSettingValue (fun _ => Option.none)
        (SettingData.mk "EXAMPLE" Option.none)
        = Except.error (PyErr.keyError "EXAMPLE") ∧
    listSettingValue (fun _ => Option.none)
        (ListSettingData.mk "EXAMPLE" (Option.none : Option (String → String))
          " " (-1) Option.none)
        = Except.error (PyErr.keyError "EXAMPLE") := by
  have h := missing_key_raises_missing_required (fun _ => Option.none)
    "EXAMPLE" rfl
  exact ⟨h.1, h.2.1, h.2.2.1, h.2.2.2 String Option.none " " (-1)⟩

/-- C2 counterexample: the claim says the backing store is consulted at most
once per instance, but an integer proxy with no fallback consults the store
twice during its single first resolution (the guarded `os.environ[name]` on
source line 301 and the unconditional `os.environ.get` on line 302), already
with key `PORT` set to `"8080"`. -/
theorem store_consulted_once_counterexample :
    ¬ ((numericSettingValueCounting pyIntParse "an int"
        (fun k => if k = "PORT" then some "8080" else Option.none)
        (SettingData.mk "PORT" Option.none)).2 ≤ 1) := by decide

/-- C2 (amended): resolution is idempotent — two consecutive value accesses
on the same instance return identical results — and the lookup/parse logic
never runs twice after a successful resolution: once a value access has
succeeded, every later access returns the cached value with zero further
store consultations (a single resolution itself may consult the store up to
twice for a numeric proxy with no fallback). -/
theorem resolution_idempotent_and_memoized {α : Type}
    (resolveC : Env → Except PyErr α × Nat) (env : Env) (c : Cached α) :
    (accessCounting resolveC env (accessCounting resolveC env c).1.2).1.1
        = (accessCounting resolveC env c).1.1 ∧
    (∀ v : α, (accessCounting resolveC env c).1.1 = Except.ok v →
      ∀ env2 : Env,
        accessCounting resolveC env2 (accessCounting resolveC env c).1.2
          = ((Except.ok v, (accessCounting resolveC env c).1.2), 0)) := by
  cases hc : c.cache with
  | some v => simp [accessCounting, hc]
  | none =>
    cases hr : resolveC env with
    | mk r n => cases r <;> simp [accessCounting, hc, hr]

/-- Concrete store and instrumented resolution for the C2 witness. -/
def portEnv : Env := fun k => if k = "PORT" then some "8080" else Option.none

/-- Instrumented resolution of an integer proxy for key `PORT`, no
fallback. -/
def rcPort : Env → Except PyErr Int × Nat := fun env =>
  numericSettingValueCounting pyIntParse "an int" env
    (SettingData.mk "PORT" Option.none)

/-- C2 (amended) witness: after the first successful access, a second access
— even against an emptied store — returns the same value with zero store
consultations. -/
theorem resolution_idempotent_and_memoized_witness :
    (accessCounting rcPort portEnv
        (accessCounting rcPort portEnv (Cached.mk Option.none)).1.2).1.1
      = (accessCounting rcPort portEnv (Cached.mk Option.none)).1.1 ∧
    accessCounting rcPort (fun _ => Option.none)
        (accessCounting rcPort portEnv (Cached.mk Option.none)).1.2
      = ((Except.ok 8080,
          (accessCounting rcPort portEnv (Cached.mk Option.none)).1.2), 0) := by
  have h := resolution_idempotent_and_memoized rcPort portEnv
    (Cached.mk Option.none)
  exact ⟨h.1, h.2 8080 (by decide) (fun _ => Option.none)⟩

/-- C3: for every key present in the backing store, a text proxy for that
key resolves to exactly the store's raw text, whether or not a fallback was
supplied. -/
theorem text_proxy_returns_raw_store_text (env : Env) (name raw : String)
    (d : Option String) (h : env name = some raw) :
    settingValue env (SettingData.mk name d) = Except.ok raw := by
  cases d <;> simp [settingValue, environGetItem, environGetD, h]

/-- C3 witness at a concrete store, with a fallback supplied. -/
theorem text_proxy_returns_raw_store_text_witness :
    settingValue (fun k => if k = "EXAMPLE" then some "hello" else Option.none)
        (SettingData.mk "EXAMPLE" (some "fb")) = Except.ok "hello" :=
  text_proxy_returns_raw_store_text _ "EXAMPLE" "hello" (some "fb") (by decide)

/-- C4: for every proxy constructed with a key and a text fallback, if the
key is absent from the backing store at resolution time, the value is the
fallback, parsed into the proxy's target type (the raw fallback for text,
its integer or rational reading for the numeric kinds, its split/stripped
pieces for the sequence kind). -/
theorem absent_key_resolves_fallback (env : Env) (name d : String)
    (h : env name = Option.none) :
    settingValue env (SettingData.mk name (some d)) = Except.ok d ∧
    (∀ n : Int, pyIntParse d = some n →
      intSettingValue env (SettingData.mk name (some d)) = Except.ok n) ∧
    (∀ q : Rat, pyFloatParse d = some q →
      floatSettingValue env (SettingData.mk name (some d)) = Except.ok q) ∧
    (∀ (sep : String) (ms : Int),
      listSettingValue env
          (ListSettingData.mk name (Option.none : Option (String → String))
            sep ms (some d))
        = Except.ok (Sum.inl ((pySplit d sep ms).map pyStrip))) := by
  refine ⟨?_, fun n hn => ?_, fun q hq => ?_, fun sep ms => ?_⟩ <;>
    simp [settingValue, environGetD, intSettingValue, floatSettingValue,
      numericSettingValue, numericRawValue, parseStep, listSettingValue,
      listRawValue, h, *]

/-- C4 witness: the spec's example — key `PORT` unset, integer proxy with
fallback `"0"` resolves to the integer `0` (and the text proxy to `"0"`). -/
theorem absent_key_resolves_fallback_witness :
    settingValue (fun _ => Option.none) (SettingData.mk "PORT" (some "0"))
        = Except.ok "0" ∧
    intSettingValue (fun _ => Option.none) (SettingData.mk "PORT" (some "0"))
        = Except.ok 0 := by
  have h := absent_key_resolves_fallback (fun _ => Option.none) "PORT" "0" rfl
  exact ⟨h.1, h.2.1 0 (by decide)⟩

/-- C5: for the numeric proxies, if the resolved text does not parse as the
target numeric kind, the access fails with a conversion error whose message
mentions both the key name and the offending raw text; if it does parse, no
such error is raised and the parsed number is returned. -/
theorem numeric_conversion_error_names_key_and_text (env : Env)
    (s : SettingData) (v : String)
    (h : numericRawValue env s = Except.ok v) :
    (pyIntParse v = Option.none →
      intSettingValue env s
          = Except.error (PyErr.valueError (convMsg "an int" s.name v)) ∧
      mentionsSub (convMsg "an int" s.name v) s.name ∧
      mentionsSub (convMsg "an int" s.name v) v) ∧
    (∀ n : Int, pyIntParse v = some n →
      intSettingValue env s = Except.ok n) ∧
    (pyFloatParse v = Option.none →
      floatSettingValue env s
          = Except.error (PyErr.valueError (convMsg "a float" s.name v)) ∧
      mentionsSub (convMsg "a float" s.name v) s.name ∧
      mentionsSub (convMsg "a float" s.name v) v) ∧
    (∀ q : Rat, pyFloatParse v = some q →
      floatSettingValue env s = Except.ok q) := by
  refine ⟨fun hnone =>
      ⟨?_, convMsg_mentions_name _ _ _, convMsg_mentions_value _ _ _⟩,
    fun n hn => ?_,
    fun hnone =>
      ⟨?_, convMsg_mentions_name _ _ _, convMsg_mentions_value _ _ _⟩,
    fun q hq => ?_⟩ <;>
    simp [intSettingValue, floatSettingValue, numericSettingValue, parseStep,
      h, *]

/-- C5 witness: the spec's example — key `RATIO` bound to `"not-a-number"`,
real-number proxy: the access errors with a message mentioning both. -/
theorem numeric_conversion_error_witness :
    floatSettingValue
        (fun k => if k = "RATIO" then some "not-a-number" else Option.none)
        (SettingData.mk "RATIO" Option.none)
        = Except.error
            (PyErr.valueError (convMsg "a float" "RATIO" "not-a-number")) ∧
    mentionsSub (convMsg "a float" "RATIO" "not-a-number") "RATIO" ∧
    mentionsSub (convMsg "a float" "RATIO" "not-a-number") "not-a-number" := by
  have h := numeric_conversion_error_names_key_and_text
    (fun k => if k = "RATIO" then some "not-a-number" else Option.none)
    (SettingData.mk "RATIO" Option.none) "not-a-number" (by decide)
  exact h.2.2.1 (by decide)

/-- C6: sequence-proxy resolution splits the resolved raw text on the
configured separator bounded by the configured maximum split count, trims
surrounding whitespace from each piece, and maps the per-item conversion
function over the pieces when one is configured. -/
theorem list_resolution_splits_strips_maps {T : Type} (env : Env)
    (s : ListSettingData T) (raw : String) (h : env s.name = some raw) :
    listSettingValue env s = Except.ok (
      match s.itemCallable with
      | Option.none => Sum.inl ((pySplit raw s.sep s.maxSplit).map pyStrip)
      | some f =>
          Sum.inr (((pySplit raw s.sep s.maxSplit).map pyStrip).map f)) := by
  cases s with
  | mk name f sep ms d =>
    cases d <;> cases f <;>
      simp_all [listSettingValue, listRawValue, environGetItem, environGetD]

/-- C6 witness: the spec's example — key `HOSTS` bound to
`"a.com, b.com ,c.com"`, separator `","`: the pieces come back trimmed. -/
theorem list_resolution_splits_strips_maps_witness :
    listSettingValue
        (fun k => if k = "HOSTS" then some "a.com, b.com ,c.com"
          else Option.none)
        (ListSettingData.mk "HOSTS" (Option.none : Option (String → String))
          "," (-1) Option.none)
        = Except.ok (Sum.inl ["a.com", "b.com", "c.com"]) := by
  have h := list_resolution_splits_strips_maps
    (fun k => if k = "HOSTS" then some "a.com, b.com ,c.com"
      else Option.none)
    (ListSettingData.mk "HOSTS" (Option.none : Option (String → String))
      "," (-1) Option.none)
    "a.com, b.com ,c.com" (by decide)
  rw [h]
  decide

/-- C7: constructing any proxy kind with a fallback that is neither text nor
the absent sentinel fails immediately with the invalid-fallback type error
(the constructors take no store argument, so the store is untouched), while
construction with a text fallback or no fallback succeeds. -/
theorem fallback_type_checked_at_construction (name : String) (v : PyVal)
    (hv : v.isStr = false) :
    (mkSetting name Option.none
        = Except.ok (SettingData.mk name Option.none)) ∧
    (∀ d : String, mkSetting name (some (PyVal.pyStr d))
        = Except.ok (SettingData.mk name (some d))) ∧
    (mkSetting name (some v)
        = Except.error (PyErr.typeError (invalidDefaultMsg v))) ∧
    (∀ (T : Type) (f : Option (String → T)) (sep : String) (ms : Int),
      mkListSetting name f sep ms (some v)
          = Except.error (PyErr.typeError (invalidDefaultMsg v)) ∧
      mkListSetting name f sep ms Option.none
          = Except.ok (ListSettingData.mk name f sep ms Option.none)) := by
  refine ⟨?_, fun d => ?_, ?_, fun T f sep ms => ⟨?_, ?_⟩⟩ <;>
    cases v <;>
      simp_all [mkSetting, mkListSetting, checkDefault, PyVal.isStr,
        Except.map]

/-- C7 witness: an integer fallback is rejected at construction; a text
fallback and the absent sentinel are accepted. -/
theorem fallback_type_checked_witness :
    mkSetting "EXAMPLE" (some (PyVal.pyInt 3))
        = Except.error (PyErr.typeError (invalidDefaultMsg (PyVal.pyInt 3))) ∧
    mkSetting "EXAMPLE" (some (PyVal.pyStr "x"))
        = Except.ok (SettingData.mk "EXAMPLE" (some "x")) ∧
    mkSetting "EXAMPLE" Option.none
        = Except.ok (SettingData.mk "EXAMPLE" Option.none) := by
  have h := fallback_type_checked_at_construction "EXAMPLE" (PyVal.pyInt 3)
    (by decide)
  exact ⟨h.2.2.1, h.2.1 "x", h.1⟩

/-- C8: numeric operations between proxies of different numeric kinds and
between a proxy and a plain number follow ordinary numeric promotion: an
integer proxy resolved to `a` plus a real proxy resolved to `b` is the real
`a + b`; a proxy plus a plain integer keeps the proxy's kind promoted as
usual (integer stays integer, real stays real). -/
theorem numeric_addition_promotes (env : Env) (si sf : SettingData)
    (a : Int) (b : Rat) (ha : intSettingValue env si = Except.ok a)
    (hb : floatSettingValue env sf = Except.ok b) :
    intSettingAdd env si (Operand.floatProxy sf)
        = Except.ok (PyNum.f ((a : Rat) + b)) ∧
    floatSettingAdd env sf (Operand.intProxy si)
        = Except.ok (PyNum.f (b + (a : Rat))) ∧
    (∀ n : Int, intSettingAdd env si (Operand.num (PyNum.i n))
        = Except.ok (PyNum.i (a + n))) ∧
    (∀ n : Int, floatSettingAdd env sf (Operand.num (PyNum.i n))
        = Except.ok (PyNum.f (b + (n : Rat)))) := by
  refine ⟨?_, ?_, fun n => ?_, fun n => ?_⟩ <;>
    simp [intSettingAdd, floatSettingAdd, operandValue, ha, hb, pyNumAdd,
      Except.map]

/-- Concrete store for the C8 witness: an integer variable `A = "10"` and a
real variable `B = "2.5"`. -/
def envAB : Env := fun k =>
  if k = "A" then some "10" else if k = "B" then some "2.5" else Option.none

/-- C8 witness: the spec's example — a numeric proxy with value 10 plus the
plain number 5 is 15 (still an integer); the integer proxy plus the real
proxy for `B = "2.5"` is the real 12.5. -/
theorem numeric_addition_promotes_witness :
    intSettingAdd envAB (SettingData.mk "A" Option.none)
        (Operand.num (PyNum.i 5)) = Except.ok (PyNum.i 15) ∧
    intSettingAdd envAB (SettingData.mk "A" Option.none)
        (Operand.floatProxy (SettingData.mk "B" Option.none))
        = Except.ok (PyNum.f (mkRat 25 2)) := by
  have h := numeric_addition_promotes envAB (SettingData.mk "A" Option.none)
    (SettingData.mk "B" Option.none) 10 (mkRat 5 2) (by decide) (by decide)
  constructor
  · have h2 := h.2.2.1 5
    rw [h2]
    decide
  · rw [h.1]
    norm_num [Rat.mkRat_eq_div]

/-- C9: a failed resolution does not populate the cache — after a raising
first access the instance is still unresolved, and a later access runs the
full lookup/parse again, succeeding (and only then caching) if the store
now holds a usable value. -/
theorem failed_resolution_not_cached {α : Type}
    (resolve : Env → Except PyErr α) (env env2 : Env) (c : Cached α)
    (e : PyErr) (hc : c.cache = Option.none)
    (hfail : resolve env = Except.error e) :
    access resolve env c = (Except.error e, c) ∧
    (∀ v : α, resolve env2 = Except.ok v →
      access resolve env2 c = (Except.ok v, Cached.mk (some v))) := by
  refine ⟨?_, fun v hv => ?_⟩ <;> simp [access, hc, hfail, *]

/-- C9 witness: an integer proxy for `PORT` fails against an empty store
leaving the cache empty, then succeeds once the store holds
`PORT = "8080"`, caching `8080`. -/
theorem failed_resolution_not_cached_witness :
    access (fun env => intSettingValue env (SettingData.mk "PORT" Option.none))
        (fun _ => Option.none) (Cached.mk Option.none)
      = (Except.error (PyErr.keyError "PORT"), Cached.mk Option.none) ∧
    access (fun env => intSettingValue env (SettingData.mk "PORT" Option.none))
        portEnv (Cached.mk Option.none)
      = (Except.ok 8080, Cached.mk (some 8080)) := by
  have h := failed_resolution_not_cached
    (fun env => intSettingValue env (SettingData.mk "PORT" Option.none))
    (fun _ => Option.none) portEnv (Cached.mk Option.none)
    (PyErr.keyError "PORT") rfl (by decide)
  exact ⟨h.1, h.2 8080 (by decide)⟩

/-- C10: every `list_methods` name that ordinary attribute lookup does not
already find on a `ListSetting` instance (so `__getattr__` is reached) is
absent from the text type's method table, so the forwarding callable that
`__getattr__` returns raises a `KeyError` when invoked instead of
performing the list operation — the lambda indexes `str.__dict__`, not
`list.__dict__`. -/
theorem forwarded_list_methods_raise :
    ∀ name ∈ listMethodNames, name ∉ listSettingProvided →
      name ∉ strMethodNames ∧
      listSettingGetattr name
        = some (Except.error (PyErr.keyError name)) := by decide

/-- C10 witness: `sort` reaches `__getattr__` and its forwarded call raises
`KeyError` rather than sorting the cached list. -/
theorem forwarded_list_methods_raise_witness :
    "sort" ∉ strMethodNames ∧
    listSettingGetattr "sort"
      = some (Except.error (PyErr.keyError "sort")) :=
  forwarded_list_methods_raise "sort" (by decide) (by decide)

end LazyEnv
